import Mathlib

/-!
# Verification of the THQMe scoring engine

Shallow embedding of the scoring engine (`accScoreLinear`, `scoreClient`,
`calcOverallScore` from the canonical, adaptive-window revision of the
scoring module) over exact rational arithmetic.  JavaScript numbers are
modelled by `JsNum` (a rational or NaN / ±Infinity); epoch-millisecond
timestamps by `ℤ`; scores by `ℚ`.
-/

/-- A JavaScript number value: a finite rational, NaN, or an infinity. -/
inductive JsNum where
  | nan : JsNum
  | inf : JsNum
  | ninf : JsNum
  | num : ℚ → JsNum
deriving DecidableEq

namespace JsNum

/-- The JS comparison `c <= x` (so `x >= c`): false whenever `x` is NaN. -/
def ge (x : JsNum) (c : ℚ) : Bool :=
  match x with
  | nan => false
  | inf => true
  | ninf => false
  | num q => decide (c ≤ q)

/-- Underlying rational of a finite value (0 for the non-finite ones; only
used in branches that a finiteness test has already guarded). -/
def toQ (x : JsNum) : ℚ :=
  match x with
  | num q => q
  | _ => 0

end JsNum

/-- The threshold classification at the end of `accScoreLinear`:
`m <= g → 100`, `g < m <= y → 100 - (m-g)*(40/(y-g))`,
`y < m <= r → 60 - (m-y)*(40/(r-y))`, `m > r → 0`. -/
def classify (g y r q : ℚ) : ℚ :=
  if q ≤ g then 100
  else if q ≤ y then 100 - (q - g) * (40 / (y - g))
  else if q ≤ r then 60 - (q - y) * (40 / (r - y))
  else 0

/-- `accScoreLinear(m?, speedKmh = 0)` from the scoring module: a missing or
non-finite error yields 0; otherwise the thresholds `g=12, y=35, r=80` are
widened by a speed boost (`+10` at `speedKmh >= 90`, interpolated
`5 + (speedKmh-50)/40*5` at `speedKmh >= 50`) before classification. -/
def accScoreLinear (m : Option JsNum) (speedKmh : JsNum) : ℚ :=
  match m with
  | some (JsNum.num q) =>
      let boost : ℚ :=
        if speedKmh.ge 90 then 10
        else if speedKmh.ge 50 then 5 + (speedKmh.toQ - 50) / 40 * 5
        else 0
      classify (12 + boost) (35 + boost) (80 + boost) q
  | _ => 0

/-- One telemetry sample: `{ts; accuracyM?; speedKmh?}`. -/
structure Sample where
  ts : ℤ
  accuracyM : Option JsNum
  speedKmh : Option JsNum
deriving DecidableEq

/-- One device: `{id; samples}`. -/
structure Client where
  id : String
  samples : List Sample
deriving DecidableEq

/-- `s.speedKmh ?? 0`. -/
def jsOrZero (x : Option JsNum) : JsNum := x.getD (JsNum.num 0)

/-- Base window 45000 ms. -/
def BASE_W : ℤ := 45000

/-- Minimum sample target for the adaptive widening. -/
def MIN_SAMPLES : ℕ := 5

/-- Window upper bound 180000 ms. -/
def MAX_W : ℤ := 180000

/-- `countBase`: number of samples with `0 ≤ now - ts ≤ BASE_W`
(the `reduce` accumulating `n + (dt >= 0 && dt <= BASE_W ? 1 : 0)`). -/
def countBase (samples : List Sample) (now : ℤ) : ℕ :=
  samples.countP (fun s => decide (0 ≤ now - s.ts ∧ now - s.ts ≤ BASE_W))

/-- `scale = countBase > 0 ? Math.ceil(MIN_SAMPLES / countBase) : 4`, with
the exact natural-number ceiling division `(5 + cb - 1) / cb`. -/
def scaleOf (cb : ℕ) : ℕ :=
  if 0 < cb then (MIN_SAMPLES + cb - 1) / cb else 4

/-- `W = Math.min(MAX_W, BASE_W * Math.max(1, scale))`. -/
def effW (samples : List Sample) (now : ℤ) : ℤ :=
  min MAX_W (BASE_W * ((max 1 (scaleOf (countBase samples now)) : ℕ) : ℤ))

/-- `win`: the working set, samples with `0 ≤ now - ts ≤ W`. -/
def windowOf (samples : List Sample) (now : ℤ) : List Sample :=
  samples.filter (fun s => decide (0 ≤ now - s.ts ∧ now - s.ts ≤ effW samples now))

/-- Ascending numeric sort, the effect of JS `arr.sort((a, b) => a - b)` on
a list of numbers (for numeric values the sorted list is unique, so the
choice of sorting algorithm is immaterial). -/
def sortAsc (l : List ℚ) : List ℚ :=
  List.insertionSort (fun a b => a ≤ b) l

/-- The sorted per-sample accuracy scores
`win.map(s => accScoreLinear(s.accuracyM, s.speedKmh ?? 0)).sort((a,b) => a-b)`. -/
def accsSorted (win : List Sample) : List ℚ :=
  sortAsc (win.map (fun s => accScoreLinear s.accuracyM (jsOrZero s.speedKmh)))

/-- The accuracy sub-score `A`: 10%-trimmed mean of the sorted per-sample
scores (`trim = floor(n*0.1)`; trim only when `n > 2*trim`). -/
def deviceA (win : List Sample) : ℚ :=
  let accs := accsSorted win
  let n := accs.length
  let trim := n / 10
  let trimmed := if 2 * trim < n then (accs.drop trim).take (n - trim - trim) else accs
  trimmed.sum / (trimmed.length : ℚ)

/-- `lastTs`: the `reduce` computing the maximum timestamp of the working
set (initialised at `-Infinity`; the working set is non-empty whenever this
is used). -/
def maxTs : List Sample → ℤ
  | [] => 0
  | s :: rest => rest.foldl (fun mx t => max mx t.ts) s.ts

/-- The freshness sub-score `F` from the age in seconds of the most recent
sample: `age <= 10 → 100`, `age >= 60 → 0`, else `100*(1-(age-10)/50)`. -/
def deviceF (win : List Sample) (now : ℤ) : ℚ :=
  let age : ℚ := max 0 (((now - maxTs win : ℤ) : ℚ) / 1000)
  if age ≤ 10 then 100
  else if 60 ≤ age then 0
  else 100 * (1 - (age - 10) / 50)

/-- The availability sub-score `V`:
`actualHz = count / (W/1000)`, `r = expectedHz > 0 ? actualHz/expectedHz : 1`,
`V = Math.max(0, Math.min(1, (r - 0.3) / (0.8 - 0.3))) * 100`. -/
def deviceV (count : ℕ) (W : ℤ) (expectedHz : ℚ) : ℚ :=
  let Wsec : ℚ := (W : ℚ) / 1000
  let actualHz : ℚ := (count : ℚ) / Wsec
  let r : ℚ := if 0 < expectedHz then actualHz / expectedHz else 1
  max 0 (min 1 ((r - 0.3) / (0.8 - 0.3))) * 100

/-- `scoreClient(c, now, expectedHz = 1)`: `null` when the working set is
empty, else the composite `0.85*A + 0.1*F + 0.05*Veff` with
`Veff = V * (F/100)`. -/
def scoreClient (c : Client) (now : ℤ) (expectedHz : ℚ) : Option ℚ :=
  let win := windowOf c.samples now
  if win.isEmpty then none
  else
    let A := deviceA win
    let F := deviceF win now
    let V := deviceV win.length (effW c.samples now) expectedHz
    let Veff := V * (F / 100)
    some (0.85 * A + 0.1 * F + 0.05 * Veff)

/-- Fleet label. -/
inductive Label where
  | Good : Label
  | Moderate : Label
  | Poor : Label
deriving DecidableEq

/-- Fleet verdict `{p50, redRatio, yellowRatio, label}`. -/
structure Verdict where
  p50 : ℚ
  redRatio : ℚ
  yellowRatio : ℚ
  label : Label
deriving DecidableEq

/-- The scored devices, ascending: map `scoreClient` over the clients, keep
the numeric results, sort (`raw.filter(...).sort((a,b) => a-b)`). -/
def fleetScores (clients : List Client) (now : ℤ) (expectedHz : ℚ) : List ℚ :=
  sortAsc ((clients.map (fun c => scoreClient c now expectedHz)).filterMap id)

/-- The `p50` median of an ascending score list: middle element for odd
length, mean of the two middle elements for even, 0 when empty. -/
def medianSorted (scores : List ℚ) : ℚ :=
  if scores.length = 0 then 0
  else if scores.length % 2 = 1 then scores.getD (scores.length / 2) 0
  else (scores.getD (scores.length / 2 - 1) 0 + scores.getD (scores.length / 2) 0) / 2

/-- `calcOverallScore(clients, now, expectedHz = 1)`. -/
def calcOverallScore (clients : List Client) (now : ℤ) (expectedHz : ℚ) : Verdict :=
  let scores := fleetScores clients now expectedHz
  let p50 := medianSorted scores
  let total : ℚ := max 1 (scores.length : ℚ)
  let R := ((scores.filter (fun s => decide (s < 40))).length : ℚ) / total
  let Y := ((scores.filter (fun s => decide (40 ≤ s ∧ s < 70))).length : ℚ) / total
  let label :=
    if p50 ≥ 80 ∧ R < 0.05 ∧ Y < 0.2 then Label.Good
    else if p50 < 50 ∨ R ≥ 0.15 then Label.Poor
    else Label.Moderate
  ⟨p50, R, Y, label⟩

/-- The effective window exactly as claim C2 words it: `countBase` counts
the samples with `0 ≤ now - ts ≤ 45000`; `scale = ⌈5 / countBase⌉` when
`countBase > 0` and `4` otherwise; `W = min(180000, 45000 · max(1, scale))`. -/
def claimW (samples : List Sample) (now : ℤ) : ℤ :=
  let cb := (samples.filter (fun s => decide (0 ≤ now - s.ts ∧ now - s.ts ≤ 45000))).length
  let sc : ℕ := if 0 < cb then (⌈(5:ℚ) / (cb:ℚ)⌉).toNat else 4
  min 180000 (45000 * ((max 1 sc : ℕ) : ℤ))

/-- Rational ceiling of `5 / cb` agrees with the natural ceiling division
`(5 + cb - 1) / cb`. -/
lemma ceil_five_div (cb : ℕ) (h : 0 < cb) :
    (⌈(5:ℚ) / (cb:ℚ)⌉).toNat = (5 + cb - 1) / cb := by
  have h0 : (0:ℚ) < (cb:ℚ) := by exact_mod_cast h
  obtain ⟨ha, hb⟩ : 5 ≤ cb * ((5 + cb - 1) / cb) ∧ cb * ((5 + cb - 1) / cb) ≤ 4 + cb := by
    have hmod := Nat.div_add_mod (5 + cb - 1) cb
    have hr : (5 + cb - 1) % cb < cb := Nat.mod_lt _ h
    generalize cb * ((5 + cb - 1) / cb) = m at hmod ⊢
    omega
  have haQ : (5:ℚ) ≤ (cb:ℚ) * ((((5 + cb - 1) / cb : ℕ)):ℚ) := by exact_mod_cast ha
  have hbQ : (cb:ℚ) * ((((5 + cb - 1) / cb : ℕ)):ℚ) ≤ 4 + (cb:ℚ) := by exact_mod_cast hb
  have hceil : ⌈(5:ℚ) / (cb:ℚ)⌉ = (((5 + cb - 1) / cb : ℕ) : ℤ) := by
    rw [Int.ceil_eq_iff]
    constructor
    · rw [lt_div_iff₀ h0, Int.cast_natCast]
      nlinarith [haQ, hbQ]
    · rw [div_le_iff₀ h0, Int.cast_natCast]
      nlinarith [haQ, hbQ]
  rw [hceil]
  exact Int.toNat_natCast _

/-- The window the code computes is the window of claim C2. -/
lemma effW_eq_claimW (samples : List Sample) (now : ℤ) :
    effW samples now = claimW samples now := by
  have hcb : countBase samples now
      = (samples.filter (fun s => decide (0 ≤ now - s.ts ∧ now - s.ts ≤ 45000))).length := by
    unfold countBase BASE_W
    exact List.countP_eq_length_filter _ _
  simp only [effW, claimW, scaleOf, MIN_SAMPLES, MAX_W, BASE_W, hcb]
  rcases Nat.eq_zero_or_pos
      ((samples.filter (fun s => decide (0 ≤ now - s.ts ∧ now - s.ts ≤ 45000))).length)
    with h0 | hpos
  · rw [h0]
    norm_num
  · rw [if_pos hpos, if_pos hpos, ceil_five_div _ hpos]

/-- C2: `scoreClient` selects its working set with the adaptive window
(`countBase` over the 45 s base window, widening scale `⌈5/countBase⌉` or 4,
`W = min(180000, 45000·max(1, scale))`, working set
`0 ≤ now − ts ≤ W`), and returns "no data" iff that set is empty. -/
theorem C2_adaptive_window (c : Client) (now : ℤ) (eHz : ℚ) :
    windowOf c.samples now
      = c.samples.filter (fun s => decide (0 ≤ now - s.ts ∧ now - s.ts ≤ claimW c.samples now))
    ∧ (scoreClient c now eHz = none ↔ windowOf c.samples now = []) := by
  constructor
  · unfold windowOf
    rw [effW_eq_claimW]
  · simp only [scoreClient]
    by_cases h : (windowOf c.samples now).isEmpty
    · simp [h, List.isEmpty_iff.mp h]
    · have hne : windowOf c.samples now ≠ [] := by
        simpa [List.isEmpty_iff] using h
      simp [h, hne]

/-- The availability score exactly as claim C3 words it:
`V = 100 · clamp((r − 0.3)/(0.8 − 0.3), 0, 1)` with
`r = actualHz / expectedHz` (`r = 1` when `expectedHz ≤ 0`) and
`actualHz` the working-set size over the window length in seconds. -/
def claimV (c : Client) (now : ℤ) (expectedHz : ℚ) : ℚ :=
  let actualHz : ℚ := ((windowOf c.samples now).length : ℚ) / ((effW c.samples now : ℚ) / 1000)
  let r : ℚ := if 0 < expectedHz then actualHz / expectedHz else 1
  100 * max 0 (min 1 ((r - 0.3) / (0.8 - 0.3)))

/-- C3: for a non-empty working set the device score is
`S = 0.85·A + 0.10·F + 0.05·Veff` with `Veff = V·(F/100)` and `V` as the
claim words it (`deviceA` is the 10%-trimmed mean of the per-sample
accuracy scores, `deviceF` the age-based freshness score). -/
theorem C3_composite_score (c : Client) (now : ℤ) (eHz : ℚ)
    (h : windowOf c.samples now ≠ []) :
    scoreClient c now eHz
      = some (0.85 * deviceA (windowOf c.samples now)
          + 0.10 * deviceF (windowOf c.samples now) now
          + 0.05 * (claimV c now eHz * (deviceF (windowOf c.samples now) now / 100))) := by
  have hne : (windowOf c.samples now).isEmpty = false := by
    simp [List.isEmpty_iff, h]
  have hV : deviceV (windowOf c.samples now).length (effW c.samples now) eHz
      = claimV c now eHz := by
    simp only [deviceV, claimV]
    ring
  simp only [scoreClient, hne, Bool.false_eq_true, if_false, hV]
  norm_num

/-- A concrete device: one fresh accurate sample 1 s before `now = 50000`. -/
def cEx : Client := ⟨"d1", [⟨49000, some (JsNum.num 5), some (JsNum.num 0)⟩]⟩

theorem C3_witness :
    windowOf cEx.samples 50000 ≠ []
    ∧ scoreClient cEx 50000 1
        = some (0.85 * deviceA (windowOf cEx.samples 50000)
            + 0.10 * deviceF (windowOf cEx.samples 50000) 50000
            + 0.05 * (claimV cEx 50000 1 * (deviceF (windowOf cEx.samples 50000) 50000 / 100))) :=
  ⟨by decide, C3_composite_score cEx 50000 1 (by decide)⟩

/-- The speed boost applied to the thresholds, as a function of a finite
speed: `10` at `90 ≤ s`, `5 + (s-50)/40*5` at `50 ≤ s < 90`, else `0`. -/
def boostOf (s : ℚ) : ℚ :=
  if 90 ≤ s then 10 else if 50 ≤ s then 5 + (s - 50) / 40 * 5 else 0

lemma accScore_num (q s : ℚ) :
    accScoreLinear (some (JsNum.num q)) (JsNum.num s)
      = classify (12 + boostOf s) (35 + boostOf s) (80 + boostOf s) q := by
  unfold accScoreLinear boostOf JsNum.ge JsNum.toQ
  rcases le_or_lt 90 s with h90 | h90
  · simp [h90]
  · rcases le_or_lt 50 s with h50 | h50
    · simp [h50, not_le.mpr h90]
    · simp [not_le.mpr h50, not_le.mpr h90]

/-- Widening all thresholds by `b` is the same as scoring `q - b` against
the nominal thresholds. -/
lemma classify_shift (b q : ℚ) :
    classify (12 + b) (35 + b) (80 + b) q = classify 12 35 80 (q - b) := by
  unfold classify
  split_ifs <;> first | ring1 | linarith

/-- The nominal classification is monotone non-increasing in the error. -/
lemma classify_antitone (x1 x2 : ℚ) (h : x1 ≤ x2) :
    classify 12 35 80 x2 ≤ classify 12 35 80 x1 := by
  unfold classify
  split_ifs <;> linarith

/-- The speed boost is monotone non-decreasing in the speed. -/
lemma boostOf_mono (s1 s2 : ℚ) (h : s1 ≤ s2) : boostOf s1 ≤ boostOf s2 := by
  unfold boostOf
  split_ifs <;> linarith

/-- C1 counterexample: at `errorMeters = 80`, `speedKmh = 0` the sample
score is not 0 (it is 20: the yellow-to-red band only drops by 40). -/
theorem C1_counterexample :
    accScoreLinear (some (JsNum.num 80)) (JsNum.num 0) ≠ 0 := by
  norm_num [accScoreLinear, classify, JsNum.ge, JsNum.toQ]

/-- C1 (amended): at `speedKmh = 0`, `scoreSample(12) = 100`,
`scoreSample(35) = 60`, `scoreSample(23.5) = 80`, and `scoreSample(80) = 20`
(the yellow-to-red band interpolates linearly from 60 down to 20 over
`(y, r]`, and the score drops to 0 only for `errorMeters > r`). -/
theorem C1_amended :
    accScoreLinear (some (JsNum.num 12)) (JsNum.num 0) = 100
    ∧ accScoreLinear (some (JsNum.num 35)) (JsNum.num 0) = 60
    ∧ accScoreLinear (some (JsNum.num (47 / 2))) (JsNum.num 0) = 80
    ∧ accScoreLinear (some (JsNum.num 80)) (JsNum.num 0) = 20 := by
  refine ⟨?_, ?_, ?_, ?_⟩ <;>
    norm_num [accScoreLinear, classify, JsNum.ge, JsNum.toQ]

/-- C7: for `50 ≤ speedKmh < 90` the scorer widens all three thresholds by
the interpolated boost `5 + (speedKmh - 50)/40 * 5` before classifying the
error. -/
theorem C7_interpolated_boost (q s : ℚ) (h1 : 50 ≤ s) (h2 : s < 90) :
    accScoreLinear (some (JsNum.num q)) (JsNum.num s)
      = classify (12 + (5 + (s - 50) / 40 * 5)) (35 + (5 + (s - 50) / 40 * 5))
          (80 + (5 + (s - 50) / 40 * 5)) q := by
  rw [accScore_num]
  have hb : boostOf s = 5 + (s - 50) / 40 * 5 := by
    unfold boostOf
    rw [if_neg (not_le.mpr h2), if_pos h1]
  rw [hb]

theorem C7_witness :
    (50:ℚ) ≤ 70 ∧ (70:ℚ) < 90
    ∧ accScoreLinear (some (JsNum.num 30)) (JsNum.num 70)
        = classify (12 + (5 + ((70:ℚ) - 50) / 40 * 5)) (35 + (5 + ((70:ℚ) - 50) / 40 * 5))
            (80 + (5 + ((70:ℚ) - 50) / 40 * 5)) 30 :=
  ⟨by norm_num, by norm_num, C7_interpolated_boost 30 70 (by norm_num) (by norm_num)⟩

/-- C8: for a fixed finite error the sample score is monotone
non-decreasing in the (finite) speed. -/
theorem C8_speed_monotone (q s1 s2 : ℚ) (h : s1 ≤ s2) :
    accScoreLinear (some (JsNum.num q)) (JsNum.num s1)
      ≤ accScoreLinear (some (JsNum.num q)) (JsNum.num s2) := by
  rw [accScore_num, accScore_num, classify_shift, classify_shift]
  exact classify_antitone _ _ (by linarith [boostOf_mono s1 s2 h])

theorem C8_witness :
    (0:ℚ) ≤ 100
    ∧ accScoreLinear (some (JsNum.num 40)) (JsNum.num 0)
        ≤ accScoreLinear (some (JsNum.num 40)) (JsNum.num 100) :=
  ⟨by norm_num, C8_speed_monotone 40 0 100 (by norm_num)⟩

/-- C10: a NaN, `-Infinity`, or negative speed gets no threshold
relaxation: the score coincides with the score at speed 0. -/
theorem C10_bad_speed_like_zero (m : Option JsNum) (s : ℚ) (hs : s < 0) :
    accScoreLinear m JsNum.nan = accScoreLinear m (JsNum.num 0)
    ∧ accScoreLinear m JsNum.ninf = accScoreLinear m (JsNum.num 0)
    ∧ accScoreLinear m (JsNum.num s) = accScoreLinear m (JsNum.num 0) := by
  have h90s : ¬ (90:ℚ) ≤ s := by linarith
  have h50s : ¬ (50:ℚ) ≤ s := by linarith
  have h900 : ¬ (90:ℚ) ≤ 0 := by norm_num
  have h500 : ¬ (50:ℚ) ≤ 0 := by norm_num
  rcases m with _ | x
  · simp [accScoreLinear]
  · rcases x with _ | _ | _ | q
    · simp [accScoreLinear]
    · simp [accScoreLinear]
    · simp [accScoreLinear]
    · simp [accScoreLinear, JsNum.ge, h90s, h50s, h900, h500]

lemma sortAsc_perm (l : List ℚ) : (sortAsc l).Perm l :=
  List.perm_insertionSort _ l

lemma length_sortAsc (l : List ℚ) : (sortAsc l).length = l.length :=
  (sortAsc_perm l).length_eq

lemma length_filter_sortAsc (p : ℚ → Bool) (l : List ℚ) :
    ((sortAsc l).filter p).length = (l.filter p).length :=
  ((sortAsc_perm l).filter p).length_eq

lemma filterMap_of_filter_isSome {α β : Type} (f : α → Option β) (l : List α) :
    (l.filter (fun a => (f a).isSome)).filterMap f = l.filterMap f := by
  induction l with
  | nil => rfl
  | cons a t ih =>
    cases hfa : f a with
    | none => simp [List.filter_cons, hfa, List.filterMap_cons, ih]
    | some b => simp [List.filter_cons, hfa, List.filterMap_cons, ih]

/-- Dropping the "no data" devices does not change the scored list. -/
lemma fleetScores_filter_nodata (clients : List Client) (now : ℤ) (eHz : ℚ) :
    fleetScores (clients.filter (fun c => (scoreClient c now eHz).isSome)) now eHz
      = fleetScores clients now eHz := by
  unfold fleetScores
  congr 1
  simp only [List.filterMap_map, Function.id_comp]
  exact filterMap_of_filter_isSome _ _

/-- When every device is "no data" the scored list is empty. -/
lemma fleetScores_nil_of_all_none (clients : List Client) (now : ℤ) (eHz : ℚ)
    (h : ∀ c ∈ clients, scoreClient c now eHz = none) :
    fleetScores clients now eHz = [] := by
  unfold fleetScores
  have hnil : (clients.map (fun c => scoreClient c now eHz)).filterMap id = [] := by
    induction clients with
    | nil => rfl
    | cons c t ih =>
      simp only [List.map_cons, List.filterMap_cons, h c (by simp)]
      exact ih (fun x hx => h x (by simp [hx]))
  rw [hnil]
  rfl

/-- C4: the fleet label is the first matching rule of
Good (`p50 ≥ 80 ∧ red < 0.05 ∧ yellow < 0.2`), then
Poor (`p50 < 50 ∨ red ≥ 0.15`), then Moderate. -/
theorem C4_label_precedence (clients : List Client) (now : ℤ) (eHz : ℚ)
    (h : ∃ c ∈ clients, scoreClient c now eHz ≠ none) :
    (calcOverallScore clients now eHz).label
      = (if (calcOverallScore clients now eHz).p50 ≥ 80
            ∧ (calcOverallScore clients now eHz).redRatio < 0.05
            ∧ (calcOverallScore clients now eHz).yellowRatio < 0.2 then Label.Good
         else if (calcOverallScore clients now eHz).p50 < 50
            ∨ (calcOverallScore clients now eHz).redRatio ≥ 0.15 then Label.Poor
         else Label.Moderate) := by
  simp only [calcOverallScore]

theorem C4_witness :
    (∃ c ∈ [cEx], scoreClient c 50000 1 ≠ none)
    ∧ (calcOverallScore [cEx] 50000 1).label
        = (if (calcOverallScore [cEx] 50000 1).p50 ≥ 80
              ∧ (calcOverallScore [cEx] 50000 1).redRatio < 0.05
              ∧ (calcOverallScore [cEx] 50000 1).yellowRatio < 0.2 then Label.Good
           else if (calcOverallScore [cEx] 50000 1).p50 < 50
              ∨ (calcOverallScore [cEx] 50000 1).redRatio ≥ 0.15 then Label.Poor
           else Label.Moderate) :=
  ⟨⟨cEx, by simp, by simp [scoreClient, show (windowOf cEx.samples 50000).isEmpty = false by decide]⟩,
    C4_label_precedence [cEx] 50000 1
      ⟨cEx, by simp, by simp [scoreClient, show (windowOf cEx.samples 50000).isEmpty = false by decide]⟩⟩

/-- C5: the fleet statistics range over the scored (non-"no data") devices
only: removing the excluded devices changes nothing, and the red and yellow
ratios are the counts of scored devices below 40 resp. in `[40, 70)`
divided by `max 1 scoredCount`. -/
theorem C5_scored_only (clients : List Client) (now : ℤ) (eHz : ℚ) :
    calcOverallScore clients now eHz
      = calcOverallScore (clients.filter (fun c => (scoreClient c now eHz).isSome)) now eHz
    ∧ (calcOverallScore clients now eHz).redRatio
        = ((((clients.map (fun c => scoreClient c now eHz)).filterMap id).filter
              (fun s => decide (s < 40))).length : ℚ)
          / max 1 (((clients.map (fun c => scoreClient c now eHz)).filterMap id).length : ℚ)
    ∧ (calcOverallScore clients now eHz).yellowRatio
        = ((((clients.map (fun c => scoreClient c now eHz)).filterMap id).filter
              (fun s => decide (40 ≤ s ∧ s < 70))).length : ℚ)
          / max 1 (((clients.map (fun c => scoreClient c now eHz)).filterMap id).length : ℚ) := by
  refine ⟨?_, ?_, ?_⟩
  · simp only [calcOverallScore]
    rw [fleetScores_filter_nodata]
  · simp only [calcOverallScore, fleetScores]
    rw [length_filter_sortAsc, length_sortAsc]
  · simp only [calcOverallScore, fleetScores]
    rw [length_filter_sortAsc, length_sortAsc]

/-- C6 counterexample: on the empty fleet the code labels "Poor", not
"Moderate" (`p50 = 0` satisfies the `p50 < 50` rule). -/
theorem C6_counterexample :
    ¬ (calcOverallScore [] 0 1).label = Label.Moderate := by
  have h : fleetScores [] 0 1 = [] := rfl
  simp only [calcOverallScore, h, medianSorted]
  norm_num
  decide

/-- C6 (amended): when the fleet is empty or every device is "no data",
the verdict is `p50 = 0`, `redRatio = 0`, `yellowRatio = 0`, and the label
is "Poor" (the `p50 < 50` rule fires at `p50 = 0`). -/
theorem C6_amended (clients : List Client) (now : ℤ) (eHz : ℚ)
    (h : ∀ c ∈ clients, scoreClient c now eHz = none) :
    calcOverallScore clients now eHz = ⟨0, 0, 0, Label.Poor⟩ := by
  simp only [calcOverallScore, fleetScores_nil_of_all_none clients now eHz h, medianSorted]
  norm_num

theorem C6_witness :
    (∀ c ∈ ([] : List Client), scoreClient c 0 1 = none)
    ∧ calcOverallScore [] 0 1 = ⟨0, 0, 0, Label.Poor⟩ :=
  ⟨by simp, C6_amended [] 0 1 (by simp)⟩

theorem C10_witness :
    (-5:ℚ) < 0
    ∧ (accScoreLinear (some (JsNum.num 20)) JsNum.nan
          = accScoreLinear (some (JsNum.num 20)) (JsNum.num 0)
        ∧ accScoreLinear (some (JsNum.num 20)) JsNum.ninf
            = accScoreLinear (some (JsNum.num 20)) (JsNum.num 0)
        ∧ accScoreLinear (some (JsNum.num 20)) (JsNum.num (-5))
            = accScoreLinear (some (JsNum.num 20)) (JsNum.num 0)) :=
  ⟨by norm_num, C10_bad_speed_like_zero (some (JsNum.num 20)) (-5) (by norm_num)⟩
